import Mathlib

/-!
# Verification of the drive-folder-listener core

Shallow embedding of `src/app/main.py`, `src/app/dify_client.py` and
`src/app/scheduler.py`: the webhook intake handler (`drive_webhook`), the
per-file processing pipeline (`process_file`), the inline debounce gate,
the ingestion upload with retry (`DifyClient.upload_file`), the channel
renewal loop (`renew_channels`) and the setup endpoint (`setup_monitoring`).

External effects (Google Drive listing/download, the Dify HTTP call, the
SQLAlchemy session) are passed in as explicit outcome parameters; module
level mutable state (`processing_files`, `LAST_CHECK_TIME`, the temp
directory) is threaded as an explicit state record.  Timestamps are `Int`
seconds.
-/

namespace DriveListener

/-- `settings.TEMP_DOWNLOAD_PATH` (config.py default `./temp`). -/
def TEMP_DOWNLOAD_PATH : String := "./temp"

/-- main.py line 87: `temp_path = settings.TEMP_DOWNLOAD_PATH / file_name`.
The path depends only on `file_name`. -/
def tempPath (file_name : String) : String :=
  TEMP_DOWNLOAD_PATH ++ "/" ++ file_name

/-- main.py line 25: `DEBOUNCE_INTERVAL = 5`. -/
def DEBOUNCE_INTERVAL : Int := 5

/-- Insert a string into a list-as-set only if absent (writing a file that
already exists on disk leaves one copy). -/
def insertUnique (l : List String) (a : String) : List String :=
  if a ∈ l then l else a :: l

/-- A row of the `processed_files` table (database.py lines 17-23):
`file_id` (unique) and `file_name`. -/
structure ProcessedFile where
  file_id : String
  file_name : String
deriving DecidableEq, Repr

/-- Process-wide mutable state touched by `process_file`:
the in-flight set `processing_files` (main.py line 21), the
`processed_files` table, the set of paths existing in the temp directory,
and a count of upload calls that returned a document id. -/
structure PipeState where
  inflight : List String
  db : List ProcessedFile
  disk : List String
  uploads : Nat
deriving DecidableEq, Repr

/-- main.py lines 126-138, the `finally` block of `process_file`: remove
`file_id` from `processing_files` (a `KeyError`, i.e. an absent element, is
tolerated), then delete the temp file if it exists.  `List.erase` on an
absent element is the identity, matching both tolerances. -/
def cleanup (file_id temp : String) (s : PipeState) : PipeState :=
  { s with inflight := s.inflight.filter (fun x => x ≠ file_id),
           disk := s.disk.filter (fun p => p ≠ temp) }

/-- Outcomes of the external calls a single `process_file` run makes:
whether the durable-store query raises, whether `download_file` returns
`True`, what the Dify upload would return when the temp file is readable,
and whether `db.commit()` of the new row succeeds. -/
structure PipeExt where
  checkOk : Bool
  downloadOk : Bool
  uploadId : Option String
  insertOk : Bool
deriving DecidableEq, Repr

/-- Program counter of one `process_file` run.  Atomic blocks are
delimited by the genuine suspension points of the source: the
`asyncio.sleep(2)` at main.py line 105 and the `client.post` at
dify_client.py line 26.  `download_file` (google_drive.py lines 93-105)
is an `async def` with no `await` inside — `MediaIoBaseDownload` is
synchronous — and inside `upload_file` the `open(file_path)`
(dify_client.py line 24) precedes the `client.post`, so the whole
stretch from sleep-resume through the download and the upload's open
executes without yielding. -/
inductive PipePC
  /-- about to run lines 89-105: in-flight guard, add, durable check;
  suspends at `asyncio.sleep`. -/
  | start
  /-- resumed from the sleep: runs the download (no awaits inside
  `download_file`) and, on success, the upload's `open` of the just
  written temp file; suspends at `client.post`. -/
  | transfer
  /-- resumed from `client.post`: handle the upload result, then lines
  113-138 (insert, commit, `finally` cleanup). -/
  | finishing
  /-- run finished (cleanup already performed). -/
  | done
deriving DecidableEq, Repr

/-- One dispatched `process_file(file_id, file_name, db)` task. -/
structure Thread where
  file_id : String
  file_name : String
  ext : PipeExt
  pc : PipePC
deriving DecidableEq, Repr

def mkThread (file_id file_name : String) (ext : PipeExt) : Thread :=
  { file_id := file_id, file_name := file_name, ext := ext, pc := .start }

/-- One atomic block of `process_file` (main.py lines 81-138).

* From `start` (lines 89-105): if `file_id ∈ processing_files` the
  function returns — but the `return` inside `try` still runs the
  `finally` block, so cleanup executes, all without yielding.  Otherwise
  add `file_id`; if a `ProcessedFile` row exists (or the query raises,
  line 99 / except line 123) return through cleanup; else suspend at
  `asyncio.sleep`.
* From `transfer` (lines 106-112 and dify_client.py line 24):
  `download_file` runs with no awaits; it opens the destination for
  writing before fetching, so the temp path exists afterwards either way.
  On `False` return through cleanup; on success `upload_file` opens the
  temp file — present, it was written in this same block — and suspends
  at `client.post`.  The upload call's overall outcome is the external
  `uploadId` (the retry loop is verified separately as `upload_file`).
* From `finishing` (lines 113-138): on `None` return through cleanup; on
  a document id count the successful upload, insert the row (`db.commit`
  failure hits `except`/`rollback`, lines 123-125), then cleanup. -/
def stepThread (t : Thread) (s : PipeState) : Thread × PipeState :=
  let temp := tempPath t.file_name
  match t.pc with
  | .start =>
      if t.file_id ∈ s.inflight then
        ({ t with pc := .done }, cleanup t.file_id temp s)
      else
        let s := { s with inflight := t.file_id :: s.inflight }
        if ¬ t.ext.checkOk ∨ s.db.any (·.file_id = t.file_id) then
          ({ t with pc := .done }, cleanup t.file_id temp s)
        else
          ({ t with pc := .transfer }, s)
  | .transfer =>
      let s := { s with disk := insertUnique s.disk temp }
      if t.ext.downloadOk then
        ({ t with pc := .finishing }, s)
      else
        ({ t with pc := .done }, cleanup t.file_id temp s)
  | .finishing =>
      match t.ext.uploadId with
      | none => ({ t with pc := .done }, cleanup t.file_id temp s)
      | some _ =>
          let s := { s with uploads := s.uploads + 1 }
          let s :=
            if t.ext.insertOk then
              { s with db := s.db ++ [⟨t.file_id, t.file_name⟩] }
            else s
          ({ t with pc := .done }, cleanup t.file_id temp s)
  | .done => (t, s)

/-- A run in isolation finishes within three atomic blocks. -/
def runAlone (t : Thread) (s : PipeState) : PipeState :=
  let (t, s) := stepThread t s
  let (t, s) := stepThread t s
  (stepThread t s).2

/-- `process_file(file_id, file_name)` executed with no interleaving. -/
def process_file (file_id file_name : String) (ext : PipeExt)
    (s : PipeState) : PipeState :=
  runAlone (mkThread file_id file_name ext) s

/-- Two concurrently dispatched `process_file` tasks under a schedule:
`true` steps the first thread, `false` the second.  The event loop
interleaves their atomic blocks at the `await` points only. -/
def runSched (sched : List Bool) (t1 t2 : Thread) (s : PipeState) :
    Thread × Thread × PipeState :=
  match sched with
  | [] => (t1, t2, s)
  | b :: rest =>
      if b then
        let (t1', s') := stepThread t1 s
        runSched rest t1' t2 s'
      else
        let (t2', s') := stepThread t2 s
        runSched rest t1 t2' s'

/-- Every configuration reachable by two dispatched `process_file` runs
for the same file (`file_id "f"`, `file_name "n"`) whose download,
upload and insert all succeed, starting both at `start` from a clean
state.  Closure of this set under `stepThread` of either thread is
checked by `decide`, and it carries the idempotence argument: whichever
run wins the in-flight guard inserts the single row, the other exits
through the guard (or through the durable check once the row exists). -/
def c3Configs : List (Thread × Thread × PipeState) :=
  let ext : PipeExt := ⟨true, true, some "doc", true⟩
  let tS : Thread := ⟨"f", "n", ext, .start⟩
  let tT : Thread := ⟨"f", "n", ext, .transfer⟩
  let tF : Thread := ⟨"f", "n", ext, .finishing⟩
  let tD : Thread := ⟨"f", "n", ext, .done⟩
  let temp := tempPath "n"
  let row : ProcessedFile := ⟨"f", "n"⟩
  [ (tS, tS, ⟨[], [], [], 0⟩),
    (tT, tS, ⟨["f"], [], [], 0⟩), (tS, tT, ⟨["f"], [], [], 0⟩),
    (tF, tS, ⟨["f"], [], [temp], 0⟩), (tS, tF, ⟨["f"], [], [temp], 0⟩),
    (tT, tD, ⟨[], [], [], 0⟩), (tD, tT, ⟨[], [], [], 0⟩),
    (tF, tD, ⟨[], [], [temp], 0⟩), (tD, tF, ⟨[], [], [temp], 0⟩),
    (tF, tD, ⟨[], [], [], 0⟩), (tD, tF, ⟨[], [], [], 0⟩),
    (tD, tS, ⟨[], [row], [], 1⟩), (tS, tD, ⟨[], [row], [], 1⟩),
    (tD, tD, ⟨[], [row], [], 1⟩) ]

/-! ## Debounce gate and webhook handler (main.py lines 140-212) -/

/-- `LAST_CHECK_TIME` (main.py line 24): a `folder_id → last check time`
mapping, modelled as an association list. -/
abbrev CheckTable := List (String × Int)

/-- Python dict assignment `LAST_CHECK_TIME[folder] = now`. -/
def setKey (tbl : CheckTable) (k : String) (v : Int) : CheckTable :=
  match tbl with
  | [] => [(k, v)]
  | (k', v') :: rest =>
      if k' = k then (k, v) :: rest else (k', v') :: setKey rest k v

/-- main.py lines 176-185, the inline debounce gate: read
`LAST_CHECK_TIME.get(folder_id, 0)`; if `now - last < DEBOUNCE_INTERVAL`
reject leaving the table untouched, else accept and store `now`. -/
def debounceAllow (tbl : CheckTable) (folder_id : String) (now : Int) :
    Bool × CheckTable :=
  let last := ((tbl.lookup folder_id).getD 0)
  if now - last < DEBOUNCE_INTERVAL then
    (false, tbl)
  else
    (true, setKey tbl folder_id now)

/-- main.py line 149: `if not x_goog_channel_id or not
x_goog_resource_state` — Python falsiness counts an absent header and an
empty string alike. -/
def headerMissing : Option String → Bool
  | none => true
  | some s => s = ""

/-- Outcomes of the external calls `drive_webhook` makes: the
`NotificationChannel` lookup (line 163, caught at line 170), the Drive
listing (line 188, NOT inside any try), the `ProcessedFile` id query
(line 192, NOT inside any try), and the dispatch loop (line 198, caught at
line 210).  Listed files are `(id, name)` pairs. -/
structure WebhookExt where
  channelLookup : Except String (Option String)
  listFiles : Except String (List (String × String))
  processedQuery : Except String (List String)
  dispatchOk : Bool

/-- What the handler produces at the HTTP boundary: a response with a
status code and a `status` string (plus the file count for `processing`),
or an exception escaping the handler unhandled. -/
inductive WebhookResult
  | response (code : Nat) (status : String) (files : Option Nat)
  | raised (msg : String)
deriving DecidableEq, Repr

/-- The status code of a returned response, if one was returned. -/
def WebhookResult.code? : WebhookResult → Option Nat
  | .response c _ _ => some c
  | .raised _ => none

/-- Everything observable about one `drive_webhook` call: the HTTP result,
the debounce table afterwards, whether `list_new_files` was called, and
the `(id, name)` pairs handed to `background_tasks.add_task`. -/
structure WebhookOut where
  result : WebhookResult
  table : CheckTable
  listingCalled : Bool
  dispatched : List (String × String)
deriving Repr

/-- main.py lines 140-212, `drive_webhook`:
1. missing/empty header → `HTTPException(400)` (line 151);
2. state `"sync"` → 200 `sync acknowledged` (line 155);
3. state `"trash"` → 200 `trash ignored` (line 159);
4. channel lookup: a raise is caught → 200 `error` (line 173); not found
   → 200 `ignored` (line 168);
5. debounce rejection → 200 `debounced` (line 180), table untouched;
6. `list_new_files` (line 188) and the `ProcessedFile` id query (line 192)
   run OUTSIDE any try: a raise there escapes the handler;
7. the dispatch loop is wrapped (lines 196-212): success → 200
   `processing` with the count of not-yet-processed files, a raise → 200
   `error`. -/
def drive_webhook (chanHdr stateHdr : Option String) (ext : WebhookExt)
    (tbl : CheckTable) (now : Int) : WebhookOut :=
  if headerMissing chanHdr ∨ headerMissing stateHdr then
    { result := .response 400 "Missing required headers" none,
      table := tbl, listingCalled := false, dispatched := [] }
  else if stateHdr = some "sync" then
    { result := .response 200 "sync acknowledged" none,
      table := tbl, listingCalled := false, dispatched := [] }
  else if stateHdr = some "trash" then
    { result := .response 200 "trash ignored" none,
      table := tbl, listingCalled := false, dispatched := [] }
  else
    match ext.channelLookup with
    | .error _ =>
        { result := .response 200 "error" none,
          table := tbl, listingCalled := false, dispatched := [] }
    | .ok none =>
        { result := .response 200 "ignored" none,
          table := tbl, listingCalled := false, dispatched := [] }
    | .ok (some folder_id) =>
        match debounceAllow tbl folder_id now with
        | (false, _) =>
            { result := .response 200 "debounced" none,
              table := tbl, listingCalled := false, dispatched := [] }
        | (true, tbl') =>
            match ext.listFiles with
            | .error e =>
                { result := .raised e, table := tbl',
                  listingCalled := true, dispatched := [] }
            | .ok files =>
                match ext.processedQuery with
                | .error e =>
                    { result := .raised e, table := tbl',
                      listingCalled := true, dispatched := [] }
                | .ok processed_ids =>
                    let newFiles :=
                      files.filter (fun f => f.1 ∉ processed_ids)
                    if ext.dispatchOk then
                      { result :=
                          .response 200 "processing" (some newFiles.length),
                        table := tbl', listingCalled := true,
                        dispatched := newFiles }
                    else
                      { result := .response 200 "error" none,
                        table := tbl', listingCalled := true,
                        dispatched := [] }

/-! ## Ingestion upload with retry (dify_client.py lines 15-48) -/

/-- What one attempt of the Dify POST yields: an exception somewhere in the
request (dify_client.py line 42), or a response with a status code and —
when the body is parsed — the value of `result.get("id")`. -/
inductive AttemptOutcome
  | raise (e : String)
  | status (code : Nat) (id : Option String)
deriving Repr

/-- An attempt that does not produce a 200 response. -/
def AttemptOutcome.fails : AttemptOutcome → Prop
  | .raise _ => True
  | .status c _ => c ≠ 200

instance : DecidablePred AttemptOutcome.fails := by
  intro a; cases a <;> simp [AttemptOutcome.fails] <;> infer_instance

/-- The `for attempt in range(retries)` loop of `upload_file`
(dify_client.py lines 19-47), with `remaining` iterations left and the
current `attempt` index.  A non-200 response on the last attempt returns
`None` (line 36), otherwise `continue`; an exception on the last attempt
returns `None` (line 45), otherwise sleep and `continue`; a 200 response
returns `result.get("id")` (line 40).  The pair also counts the attempts
made; falling out of the loop returns `None` (line 48). -/
def uploadGo (gw : Nat → AttemptOutcome) (attempt : Nat) :
    Nat → Option String × Nat
  | 0 => (none, attempt)
  | remaining + 1 =>
      match gw attempt with
      | .raise _ =>
          if remaining = 0 then (none, attempt + 1)
          else uploadGo gw (attempt + 1) remaining
      | .status code id =>
          if code ≠ 200 then
            if remaining = 0 then (none, attempt + 1)
            else uploadGo gw (attempt + 1) remaining
          else (id, attempt + 1)

/-- `DifyClient.upload_file(file_path, retries)` (dify_client.py line 15):
returns the document id or `None`, never letting an exception out, plus
the number of attempts made. -/
def upload_file (gw : Nat → AttemptOutcome) (retries : Nat := 3) :
    Option String × Nat :=
  uploadGo gw 0 retries

/-! ## Channel renewal loop (scheduler.py lines 11-41) -/

/-- A row of the `notification_channels` table (database.py lines 25-31). -/
structure NotificationChannel where
  channel_id : String
  folder_id : String
  expiration : Int
deriving DecidableEq, Repr

/-- What `setup_watch(folder_id)` returns on success (google_drive.py
lines 68-72): the new channel id and expiration for the same folder. -/
structure WatchChannel where
  channel_id : String
  folder_id : String
  expiration : Int
deriving DecidableEq, Repr

/-- Per-channel external outcomes of one renewal iteration:
`setup_watch` (scheduler.py line 29, may raise) and the `db.commit`
(line 34, may raise).  `stop_watch` catches its own exceptions and only
returns a boolean, so it cannot affect control flow or state. -/
structure RenewExt where
  setup : NotificationChannel → Except String WatchChannel
  commitOk : NotificationChannel → Bool

/-- scheduler.py lines 17-21: channels whose `expiration` is at or before
the lookahead threshold are this run's candidates. -/
def renewCandidates (channels : List NotificationChannel)
    (threshold : Int) : List NotificationChannel :=
  channels.filter (fun c => c.expiration ≤ threshold)

/-- One iteration of the renewal loop body (scheduler.py lines 23-39) for
a candidate channel: on a `setup_watch` raise or a commit failure the
`except` branch logs and rolls back, leaving the row as it was; on
success the row's `channel_id` and `expiration` are replaced together. -/
def renewOne (ext : RenewExt) (c : NotificationChannel) :
    NotificationChannel :=
  match ext.setup c with
  | .error _ => c
  | .ok nc =>
      if ext.commitOk c then
        { c with channel_id := nc.channel_id, expiration := nc.expiration }
      else c

/-- `renew_channels()` (scheduler.py lines 11-41) acting on the whole
table: rows inside the expiration threshold go through the loop body,
each in its own try/except (one failure never aborts the others); rows
outside it are not candidates and are untouched. -/
def renew_channels (channels : List NotificationChannel) (threshold : Int)
    (ext : RenewExt) : List NotificationChannel :=
  channels.map (fun c =>
    if c.expiration ≤ threshold then renewOne ext c else c)

/-! ## Setup endpoint (main.py lines 48-77) -/

/-- External outcomes of one `setup_monitoring` call: whether
`drive_service.service` is initialized (line 57), what `setup_watch`
yields (line 61, may raise), and whether `db.commit()` of the new row
succeeds (line 71). -/
structure SetupExt where
  serviceInit : Bool
  watch : Except String WatchChannel
  commitOk : Bool

/-- The HTTP-boundary outcome of `setup_monitoring`: the success body
carries the channel dict; every failure becomes `HTTPException(500)`. -/
inductive SetupResult
  | ok (channel : WatchChannel)
  | err500 (msg : String)
deriving DecidableEq, Repr

/-- `setup_monitoring(folder_id)` (main.py lines 48-77): any raise inside
the try — uninitialized service, `setup_watch` failure, commit failure —
is caught, the session rolled back (so no row persists), and a 500
returned; on success exactly the one new `NotificationChannel` row is
appended and the channel returned. -/
def setup_monitoring (ext : SetupExt)
    (channels : List NotificationChannel) :
    List NotificationChannel × SetupResult :=
  if ¬ ext.serviceInit then
    (channels, .err500 "Google Drive service not properly initialized")
  else
    match ext.watch with
    | .error e => (channels, .err500 e)
    | .ok ch =>
        if ext.commitOk then
          (channels ++ [⟨ch.channel_id, ch.folder_id, ch.expiration⟩],
           .ok ch)
        else
          (channels, .err500 "commit failed")

/-! ## Helper lemmas -/

theorem cleanup_disk (file_id temp : String) (s : PipeState) :
    temp ∉ (cleanup file_id temp s).disk := by
  simp [cleanup]

theorem cleanup_inflight (file_id temp : String) (s : PipeState) :
    file_id ∉ (cleanup file_id temp s).inflight := by
  simp [cleanup]

/-- Shorthand for the pipeline run's own temp path. -/
def Thread.temp (t : Thread) : String := tempPath t.file_name

theorem step_done (t : Thread) (s : PipeState) (h : t.pc = .done) :
    stepThread t s = (t, s) := by
  obtain ⟨fid, fn, ext, pc⟩ := t
  cases h
  rfl

theorem step_start_hit (t : Thread) (s : PipeState) (hpc : t.pc = .start)
    (h : t.file_id ∈ s.inflight) :
    stepThread t s = ({ t with pc := .done }, cleanup t.file_id t.temp s) := by
  obtain ⟨fid, fn, ext, pc⟩ := t
  cases hpc
  simp [stepThread, Thread.temp, h]

theorem step_start_skip (t : Thread) (s : PipeState) (hpc : t.pc = .start)
    (h : t.file_id ∉ s.inflight)
    (h2 : ¬ t.ext.checkOk = true ∨
      (s.db.any (·.file_id = t.file_id)) = true) :
    stepThread t s =
      ({ t with pc := .done },
        cleanup t.file_id t.temp
          { s with inflight := t.file_id :: s.inflight }) := by
  obtain ⟨fid, fn, ext, pc⟩ := t
  cases hpc
  simp only [stepThread, Thread.temp, if_neg h]
  rw [if_pos]
  exact h2

theorem step_start_go (t : Thread) (s : PipeState) (hpc : t.pc = .start)
    (h : t.file_id ∉ s.inflight)
    (h2 : t.ext.checkOk = true)
    (h3 : (s.db.any (·.file_id = t.file_id)) = false) :
    stepThread t s =
      ({ t with pc := .transfer },
        { s with inflight := t.file_id :: s.inflight }) := by
  obtain ⟨fid, fn, ext, pc⟩ := t
  cases hpc
  simp only [stepThread, Thread.temp, if_neg h]
  rw [if_neg]
  rintro (hc | ha)
  · exact hc h2
  · simp_all

theorem step_download_ok (t : Thread) (s : PipeState)
    (hpc : t.pc = .transfer) (h : t.ext.downloadOk = true) :
    stepThread t s =
      ({ t with pc := .finishing },
        { s with disk := insertUnique s.disk t.temp }) := by
  obtain ⟨fid, fn, ext, pc⟩ := t
  cases hpc
  simp_all [stepThread, Thread.temp]

theorem step_download_fail (t : Thread) (s : PipeState)
    (hpc : t.pc = .transfer) (h : t.ext.downloadOk = false) :
    stepThread t s =
      ({ t with pc := .done },
        cleanup t.file_id t.temp
          { s with disk := insertUnique s.disk t.temp }) := by
  obtain ⟨fid, fn, ext, pc⟩ := t
  cases hpc
  simp_all [stepThread, Thread.temp]

theorem step_upload_fail (t : Thread) (s : PipeState)
    (hpc : t.pc = .finishing) (h : t.ext.uploadId = none) :
    stepThread t s =
      ({ t with pc := .done }, cleanup t.file_id t.temp s) := by
  obtain ⟨fid, fn, ext, pc⟩ := t
  cases hpc
  simp only [stepThread, Thread.temp] at h ⊢
  rw [h]

theorem step_upload_ok (t : Thread) (s : PipeState)
    (hpc : t.pc = .finishing) (d : String)
    (hid : t.ext.uploadId = some d) :
    stepThread t s =
      ({ t with pc := .done },
        cleanup t.file_id t.temp
          { s with uploads := s.uploads + 1,
                   db := if t.ext.insertOk then
                           s.db ++ [⟨t.file_id, t.file_name⟩]
                         else s.db }) := by
  obtain ⟨fid, fn, ext, pc⟩ := t
  cases hpc
  simp only [stepThread, Thread.temp] at hid ⊢
  rw [hid]
  by_cases hins : ext.insertOk = true <;> simp [hins]

/-- Every exit path of an isolated `process_file` run goes through the
`finally` cleanup: the final state is `cleanup` of some intermediate
state. -/
theorem run_ends_cleaned (file_id file_name : String) (ext : PipeExt)
    (s : PipeState) :
    ∃ x, process_file file_id file_name ext s =
      cleanup file_id (tempPath file_name) x := by
  unfold process_file runAlone mkThread
  by_cases h1 : file_id ∈ s.inflight
  · rw [step_start_hit ⟨file_id, file_name, ext, .start⟩ s rfl h1]
    simp only [step_done ⟨file_id, file_name, ext, .done⟩ _ rfl]
    exact ⟨_, rfl⟩
  · by_cases h2 : ext.checkOk = true
    · by_cases h3 : (s.db.any (·.file_id = file_id)) = true
      · rw [step_start_skip ⟨file_id, file_name, ext, .start⟩ s rfl h1
          (Or.inr h3)]
        simp only [step_done ⟨file_id, file_name, ext, .done⟩ _ rfl]
        exact ⟨_, rfl⟩
      · rw [step_start_go ⟨file_id, file_name, ext, .start⟩ s rfl h1 h2
          (Bool.not_eq_true _ ▸ h3)]
        dsimp only
        by_cases h4 : ext.downloadOk = true
        · rw [step_download_ok ⟨file_id, file_name, ext, .transfer⟩ _
            rfl h4]
          dsimp only
          cases hid : ext.uploadId with
          | none =>
              rw [step_upload_fail ⟨file_id, file_name, ext, .finishing⟩ _
                rfl hid]
              exact ⟨_, rfl⟩
          | some d =>
              rw [step_upload_ok ⟨file_id, file_name, ext, .finishing⟩ _
                rfl d hid]
              exact ⟨_, rfl⟩
        · rw [step_download_fail ⟨file_id, file_name, ext, .transfer⟩ _
            rfl (Bool.not_eq_true _ ▸ h4)]
          simp only [step_done ⟨file_id, file_name, ext, .done⟩ _ rfl]
          exact ⟨_, rfl⟩
    · rw [step_start_skip ⟨file_id, file_name, ext, .start⟩ s rfl h1
        (Or.inl h2)]
      simp only [step_done ⟨file_id, file_name, ext, .done⟩ _ rfl]
      exact ⟨_, rfl⟩

/-- After any isolated `process_file` run the run's temp path is gone
from disk. -/
theorem run_removes_temp (file_id file_name : String) (ext : PipeExt)
    (s : PipeState) :
    tempPath file_name ∉ (process_file file_id file_name ext s).disk := by
  obtain ⟨x, hx⟩ := run_ends_cleaned file_id file_name ext s
  rw [hx]
  exact cleanup_disk _ _ _

/-- After any isolated `process_file` run the `file_id` is gone from the
in-flight set. -/
theorem run_removes_inflight (file_id file_name : String) (ext : PipeExt)
    (s : PipeState) :
    file_id ∉ (process_file file_id file_name ext s).inflight := by
  obtain ⟨x, hx⟩ := run_ends_cleaned file_id file_name ext s
  rw [hx]
  exact cleanup_inflight _ _ _

/-- The full trace of a run that passes the guards, downloads, and then
fails at the upload step: it ends as cleanup of the state with the
`file_id` marker added and the temp file downloaded, with the database
untouched. -/
theorem run_upload_fail_trace (file_id file_name : String) (ext : PipeExt)
    (s : PipeState) (h1 : file_id ∉ s.inflight) (h2 : ext.checkOk = true)
    (h3 : (s.db.any (·.file_id = file_id)) = false)
    (h4 : ext.downloadOk = true) (h5 : ext.uploadId = none) :
    process_file file_id file_name ext s =
      cleanup file_id (tempPath file_name)
        { s with inflight := file_id :: s.inflight,
                 disk := insertUnique s.disk (tempPath file_name) } := by
  unfold process_file runAlone mkThread
  rw [step_start_go ⟨file_id, file_name, ext, .start⟩ s rfl h1 h2 h3]
  dsimp only
  rw [step_download_ok ⟨file_id, file_name, ext, .transfer⟩ _ rfl h4]
  dsimp only
  rw [step_upload_fail ⟨file_id, file_name, ext, .finishing⟩ _ rfl h5]
  rfl

/-! ## Claim theorems -/

/-- **C2** (code bug in the source): the claim says an invocation of
`process_file` whose `file_id` is already in the in-flight set returns as
a no-op, leaving the in-flight set and temp files untouched.  In main.py
the early `return` at line 93 sits inside the `try`, so the `finally`
block (lines 126-138) still runs: it removes the entry the concurrent run
added and deletes that run's temp file.  Concretely, with `"f1"` in
flight and `./temp/a.txt` on disk, the call empties both. -/
theorem c2_early_return_runs_cleanup :
    process_file "f1" "a.txt" ⟨true, true, some "doc", true⟩
        ⟨["f1"], [], [tempPath "a.txt"], 0⟩ =
      ⟨[], [], [], 0⟩ := by
  rfl

/-- Stepping the first thread keeps a reachable configuration
reachable. -/
theorem c3_step1_closed : ∀ c ∈ c3Configs,
    ((stepThread c.1 c.2.2).1, c.2.1, (stepThread c.1 c.2.2).2) ∈
      c3Configs := by
  decide

/-- Stepping the second thread keeps a reachable configuration
reachable. -/
theorem c3_step2_closed : ∀ c ∈ c3Configs,
    (c.1, (stepThread c.2.1 c.2.2).1, (stepThread c.2.1 c.2.2).2) ∈
      c3Configs := by
  decide

/-- Any schedule keeps two same-file runs inside the reachable
configuration set. -/
theorem runSched_mem_c3Configs (sched : List Bool) (t1 t2 : Thread)
    (s : PipeState) (h : (t1, t2, s) ∈ c3Configs) :
    ((runSched sched t1 t2 s).1, (runSched sched t1 t2 s).2.1,
      (runSched sched t1 t2 s).2.2) ∈ c3Configs := by
  induction sched generalizing t1 t2 s with
  | nil => simpa [runSched] using h
  | cons b rest ih =>
      cases b
      · have h2 := c3_step2_closed (t1, t2, s) h
        simpa [runSched] using ih _ _ _ h2
      · have h1 := c3_step1_closed (t1, t2, s) h
        simpa [runSched] using ih _ _ _ h1

/-- Every reachable configuration with both runs finished has exactly
one `ProcessedFile` row and exactly one successful upload. -/
theorem c3_done_config : ∀ c ∈ c3Configs,
    c.1.pc = .done → c.2.1.pc = .done →
    c.2.2.db = [⟨"f", "n"⟩] ∧ c.2.2.uploads = 1 := by
  decide

/-- **C3**: processing the same file twice — sequentially or under any
interleaving of the two runs' atomic blocks at the source's real
suspension points (`asyncio.sleep`, `client.post`) — ends, once both
runs complete, with exactly one `ProcessedFile` row and exactly one
successful upload call: whichever run wins the in-flight guard inserts
the row; the other exits through the in-flight guard (or through the
durable-record check once the row exists) without inserting or
uploading again.  The schedule is universally quantified. -/
theorem c3_two_runs_one_row (sched : List Bool)
    (h1 : (runSched sched
        (mkThread "f" "n" ⟨true, true, some "doc", true⟩)
        (mkThread "f" "n" ⟨true, true, some "doc", true⟩)
        ⟨[], [], [], 0⟩).1.pc = .done)
    (h2 : (runSched sched
        (mkThread "f" "n" ⟨true, true, some "doc", true⟩)
        (mkThread "f" "n" ⟨true, true, some "doc", true⟩)
        ⟨[], [], [], 0⟩).2.1.pc = .done) :
    (runSched sched
        (mkThread "f" "n" ⟨true, true, some "doc", true⟩)
        (mkThread "f" "n" ⟨true, true, some "doc", true⟩)
        ⟨[], [], [], 0⟩).2.2.db = [⟨"f", "n"⟩] ∧
    (runSched sched
        (mkThread "f" "n" ⟨true, true, some "doc", true⟩)
        (mkThread "f" "n" ⟨true, true, some "doc", true⟩)
        ⟨[], [], [], 0⟩).2.2.uploads = 1 :=
  c3_done_config _
    (runSched_mem_c3Configs sched _ _ _ (by decide)) h1 h2

/-- Witness for the C3 theorem at the tightest schedule: run 2 hits the
in-flight guard between run 1's transfer block and its post-resume (so
run 2's `finally` deletes the shared temp path and run 1's in-flight
marker), yet run 1's upload — whose `open` happened inside the transfer
block — still succeeds, for exactly one row and one upload. -/
theorem c3_two_runs_one_row_witness :
    (runSched [true, true, false, true]
        (mkThread "f" "n" ⟨true, true, some "doc", true⟩)
        (mkThread "f" "n" ⟨true, true, some "doc", true⟩)
        ⟨[], [], [], 0⟩).2.2.db = [⟨"f", "n"⟩] ∧
    (runSched [true, true, false, true]
        (mkThread "f" "n" ⟨true, true, some "doc", true⟩)
        (mkThread "f" "n" ⟨true, true, some "doc", true⟩)
        ⟨[], [], [], 0⟩).2.2.uploads = 1 :=
  c3_two_runs_one_row [true, true, false, true] (by decide) (by decide)

/-- **C6**: a pipeline run that passes the in-flight and durable checks,
downloads, and then fails at the upload step (the upload returns no
document id) ends with the temp file gone from disk, the `file_id` gone
from the in-flight set, no `ProcessedFile` row inserted, and no
successful upload counted; the first two conjuncts hold via the
guaranteed `finally` cleanup on every exit path
(`run_removes_temp`/`run_removes_inflight` are unconditional). -/
theorem c6_upload_failure_cleanup (file_id file_name : String)
    (ext : PipeExt) (s : PipeState)
    (h1 : file_id ∉ s.inflight) (h2 : ext.checkOk = true)
    (h3 : (s.db.any (·.file_id = file_id)) = false)
    (h4 : ext.downloadOk = true) (h5 : ext.uploadId = none) :
    tempPath file_name ∉ (process_file file_id file_name ext s).disk ∧
    file_id ∉ (process_file file_id file_name ext s).inflight ∧
    (process_file file_id file_name ext s).db = s.db ∧
    (process_file file_id file_name ext s).uploads = s.uploads := by
  refine ⟨run_removes_temp _ _ _ _, run_removes_inflight _ _ _ _, ?_, ?_⟩ <;>
    rw [run_upload_fail_trace file_id file_name ext s h1 h2 h3 h4 h5] <;>
    rfl

/-- Witness for the C6 theorem at a concrete input. -/
theorem c6_upload_failure_cleanup_witness :
    tempPath "a.txt" ∉
      (process_file "f" "a.txt" ⟨true, true, none, true⟩
        ⟨[], [], [], 0⟩).disk ∧
    "f" ∉ (process_file "f" "a.txt" ⟨true, true, none, true⟩
        ⟨[], [], [], 0⟩).inflight ∧
    (process_file "f" "a.txt" ⟨true, true, none, true⟩
        ⟨[], [], [], 0⟩).db = ([] : List ProcessedFile) ∧
    (process_file "f" "a.txt" ⟨true, true, none, true⟩
        ⟨[], [], [], 0⟩).uploads = 0 :=
  c6_upload_failure_cleanup "f" "a.txt" ⟨true, true, none, true⟩
    ⟨[], [], [], 0⟩ (by decide) rfl rfl rfl rfl

/-- **C10**: the temporary download path is computed from `file_name`
alone (main.py line 87), so two invocations with distinct `file_id`s but
the same `file_name` use the same path, and the second invocation's
cleanup deletes whatever file the first left at that path. -/
theorem c10_temp_path_ignores_file_id (f1 f2 n : String) (h : f1 ≠ f2)
    (ext1 ext2 : PipeExt) (s : PipeState) :
    (mkThread f1 n ext1).temp = (mkThread f2 n ext2).temp ∧
    tempPath n ∉ (process_file f2 n ext2 s).disk :=
  ⟨rfl, run_removes_temp _ _ _ _⟩

/-- Witness for the C10 theorem at a concrete input: the first run's file
`./temp/doc.pdf` is on disk; the second run (different `file_id`, same
name) removes it. -/
theorem c10_temp_path_ignores_file_id_witness :
    (mkThread "idA" "doc.pdf" ⟨true, true, none, true⟩).temp =
      (mkThread "idB" "doc.pdf" ⟨true, true, none, true⟩).temp ∧
    tempPath "doc.pdf" ∉
      (process_file "idB" "doc.pdf" ⟨true, true, none, true⟩
        ⟨[], [], [tempPath "doc.pdf"], 0⟩).disk :=
  c10_temp_path_ignores_file_id "idA" "idB" "doc.pdf" (by decide) _ _ _

/-- **C4** counterexample: the claim states that with
`DEBOUNCE_INTERVAL = 5`, two calls for the same folder at `t=0` and `t=4`
yield `(true, false)`.  In the code a folder with no prior check reads
`LAST_CHECK_TIME.get(folder, 0) = 0`, so the first call at `t=0` computes
`0 - 0 < 5` and is REJECTED: the pair is `(false, false)`, and the claim's
"no prior check exists" disjunct is false whenever `now <
DEBOUNCE_INTERVAL`. -/
theorem c4_first_call_rejected_counterexample :
    (debounceAllow [] "folderA" 0).1 = false ∧
    (debounceAllow (debounceAllow [] "folderA" 0).2 "folderA" 4).1 =
      false := by
  decide

/-- **C4** as amended: the gate returns true and records `now` if and only
if `now - last ≥ DEBOUNCE_INTERVAL` where a folder with no prior check
counts as `last = 0` (so a first call passes only when
`now ≥ DEBOUNCE_INTERVAL`); on rejection the stored table is untouched.
With `DEBOUNCE_INTERVAL = 5`, calls for the same folder at `t=10` and
`t=14` yield `(true, false)` and calls at `t=10` and `t=15` yield
`(true, true)`. -/
theorem c4_debounce_characterization (tbl : CheckTable)
    (folder_id : String) (now : Int) :
    ((debounceAllow tbl folder_id now).1 = true ↔
      DEBOUNCE_INTERVAL ≤ now - ((tbl.lookup folder_id).getD 0)) ∧
    ((debounceAllow tbl folder_id now).2 =
      if (debounceAllow tbl folder_id now).1 = true
      then setKey tbl folder_id now else tbl) ∧
    (debounceAllow [] "f" 10).1 = true ∧
    (debounceAllow (debounceAllow [] "f" 10).2 "f" 14).1 = false ∧
    (debounceAllow (debounceAllow [] "f" 10).2 "f" 14).2 =
      (debounceAllow [] "f" 10).2 ∧
    (debounceAllow (debounceAllow [] "f" 10).2 "f" 15).1 = true := by
  refine ⟨?_, ?_, by decide, by decide, by decide, by decide⟩
  · unfold debounceAllow DEBOUNCE_INTERVAL
    dsimp only
    split
    · next h => simp; omega
    · next h => simp; omega
  · unfold debounceAllow
    dsimp only
    split
    · next h => simp [h]
    · next h => simp [h]

/-- **C8**: a notification whose state is `sync` or `trash`, and a
notification whose channel id is absent from the store, each return a 200
response, never call `list_new_files`, and dispatch no pipeline run. -/
theorem c8_ignored_states_no_listing (chan : String)
    (stateHdr : Option String) (ext : WebhookExt) (tbl : CheckTable)
    (now : Int) (hchan : chan ≠ "")
    (h : stateHdr = some "sync" ∨ stateHdr = some "trash" ∨
      (headerMissing stateHdr = false ∧ ext.channelLookup = .ok none)) :
    (drive_webhook (some chan) stateHdr ext tbl now).result.code? =
      some 200 ∧
    (drive_webhook (some chan) stateHdr ext tbl now).listingCalled =
      false ∧
    (drive_webhook (some chan) stateHdr ext tbl now).dispatched = [] := by
  rcases h with h | h | ⟨hm, hl⟩
  · subst h
    simp [drive_webhook, headerMissing, hchan, WebhookResult.code?]
  · subst h
    simp [drive_webhook, headerMissing, hchan, WebhookResult.code?]
  · by_cases hs : stateHdr = some "sync"
    · subst hs
      simp [drive_webhook, headerMissing, hchan, WebhookResult.code?]
    · by_cases ht : stateHdr = some "trash"
      · subst ht
        simp [drive_webhook, headerMissing, hchan, WebhookResult.code?]
      · have hcm : headerMissing (some chan) = false := by
          simp [headerMissing, hchan]
        simp [drive_webhook, hcm, hm, hs, ht, hl, WebhookResult.code?]

/-- Witness for the C8 theorem: a `sync` notification at a concrete
input. -/
theorem c8_ignored_states_no_listing_witness :
    (drive_webhook (some "c") (some "sync")
        ⟨.ok none, .ok [], .ok [], true⟩ [] 0).result.code? = some 200 ∧
    (drive_webhook (some "c") (some "sync")
        ⟨.ok none, .ok [], .ok [], true⟩ [] 0).listingCalled = false ∧
    (drive_webhook (some "c") (some "sync")
        ⟨.ok none, .ok [], .ok [], true⟩ [] 0).dispatched = [] :=
  c8_ignored_states_no_listing "c" (some "sync")
    ⟨.ok none, .ok [], .ok [], true⟩ [] 0 (by decide) (Or.inl rfl)

/-- **C1** counterexample: with both headers present, a known channel and
an open debounce window, a failure of the listing call does NOT map to a
success status — `list_new_files` (main.py line 188) runs outside any
try/except, so the exception escapes the handler instead of producing a
200 response. -/
theorem c1_listing_raise_counterexample :
    (drive_webhook (some "chanA") (some "update")
        ⟨.ok (some "folderA"), .error "listing failed", .ok [], true⟩
        [] 100).result = .raised "listing failed" ∧
    (drive_webhook (some "chanA") (some "update")
        ⟨.ok (some "folderA"), .error "listing failed", .ok [], true⟩
        [] 100).result.code? = none := by
  refine ⟨rfl, rfl⟩

/-- **C1** as amended: with both required headers present (non-empty), the
handler returns a 200 response for every channel-lookup outcome (including
a raising lookup), every debounce decision, and every dispatch outcome
(including a raising dispatch), PROVIDED the listing call and the
processed-file query do not raise — those two run outside any try/except
and a raise there escapes the handler unhandled.  A 400 response is
returned exactly when a required header is missing or empty. -/
theorem c1_webhook_always_acks (chanHdr stateHdr : Option String)
    (ext : WebhookExt) (tbl : CheckTable) (now : Int)
    (hc : headerMissing chanHdr = false)
    (hs : headerMissing stateHdr = false)
    (hlist : ∀ e, ext.listFiles ≠ .error e)
    (hproc : ∀ e, ext.processedQuery ≠ .error e) :
    (drive_webhook chanHdr stateHdr ext tbl now).result.code? =
      some 200 ∧
    ∀ (c s : Option String) (e : WebhookExt) (t : CheckTable) (n : Int),
      ((drive_webhook c s e t n).result.code? = some 400 ↔
        (headerMissing c = true ∨ headerMissing s = true)) := by
  constructor
  · unfold drive_webhook
    rw [if_neg (by simp [hc, hs])]
    split
    · rfl
    split
    · rfl
    split
    · rfl
    · rfl
    · split
      · rfl
      · split
        · next e heq => exact absurd heq (hlist e)
        · split
          · next e heq => exact absurd heq (hproc e)
          · split
            · rfl
            · rfl
  · intro c s e t n
    by_cases hm : (headerMissing c = true ∨ headerMissing s = true)
    · unfold drive_webhook
      rw [if_pos hm]
      exact iff_of_true rfl hm
    · unfold drive_webhook
      rw [if_neg hm]
      split
      · simp [hm, WebhookResult.code?]
      split
      · simp [hm, WebhookResult.code?]
      split
      · simp [hm, WebhookResult.code?]
      · simp [hm, WebhookResult.code?]
      · split
        · simp [hm, WebhookResult.code?]
        · split
          · simp [hm, WebhookResult.code?]
          · split
            · simp [hm, WebhookResult.code?]
            · split <;> simp [hm, WebhookResult.code?]

/-- Witness for the C1 amended theorem at a concrete input where no
internal call fails. -/
theorem c1_webhook_always_acks_witness :
    (drive_webhook (some "c") (some "update")
        ⟨.ok (some "f"), .ok [], .ok [], true⟩ [] 100).result.code? =
      some 200 :=
  (c1_webhook_always_acks (some "c") (some "update")
    ⟨.ok (some "f"), .ok [], .ok [], true⟩ [] 100 rfl rfl
    (fun _ h => Except.noConfusion h)
    (fun _ h => Except.noConfusion h)).1

/-- A failing attempt that is not the last one just advances to the next
attempt. -/
theorem uploadGo_fail_step (gw : Nat → AttemptOutcome)
    (attempt remaining : Nat) (h : (gw attempt).fails) :
    uploadGo gw attempt (remaining + 2) =
      uploadGo gw (attempt + 1) (remaining + 1) := by
  cases hg : gw attempt with
  | raise e => simp [uploadGo, hg]
  | status code id =>
      rw [hg] at h
      simp only [AttemptOutcome.fails] at h
      simp [uploadGo, hg, h]

/-- A failing attempt that is the last one returns `None`. -/
theorem uploadGo_fail_last (gw : Nat → AttemptOutcome) (attempt : Nat)
    (h : (gw attempt).fails) :
    uploadGo gw attempt 1 = (none, attempt + 1) := by
  cases hg : gw attempt with
  | raise e => simp [uploadGo, hg]
  | status code id =>
      rw [hg] at h
      simp only [AttemptOutcome.fails] at h
      simp [uploadGo, hg, h]

/-- A 200 response ends the loop at once with `result.get("id")`. -/
theorem uploadGo_success (gw : Nat → AttemptOutcome)
    (attempt remaining : Nat) (id : Option String)
    (h : gw attempt = .status 200 id) :
    uploadGo gw attempt (remaining + 1) = (id, attempt + 1) := by
  simp [uploadGo, h]

/-- **C5**: with `retries = 3` the upload makes at most 3 attempts and
never raises: a gateway that fails the first 2 attempts and responds 200
with a document id on the 3rd makes `upload_file` return that id after
exactly 3 attempts, and a gateway that fails every attempt makes it
return `None` after exactly 3 attempts. -/
theorem c5_upload_retry_bound (gw gwBad : Nat → AttemptOutcome)
    (d : String) (h1 : (gw 0).fails) (h2 : (gw 1).fails)
    (h3 : gw 2 = .status 200 (some d))
    (h4 : ∀ i, i < 3 → (gwBad i).fails) :
    upload_file gw 3 = (some d, 3) ∧ upload_file gwBad 3 = (none, 3) := by
  constructor
  · unfold upload_file
    rw [show (3 : Nat) = 1 + 2 from rfl, uploadGo_fail_step gw 0 1 h1,
      uploadGo_fail_step gw 1 0 h2, uploadGo_success gw 2 0 (some d) h3]
  · unfold upload_file
    rw [show (3 : Nat) = 1 + 2 from rfl,
      uploadGo_fail_step gwBad 0 1 (h4 0 (by decide)),
      uploadGo_fail_step gwBad 1 0 (h4 1 (by decide)),
      uploadGo_fail_last gwBad 2 (h4 2 (by decide))]

/-- Witness for the C5 theorem: a gateway raising on the first two
attempts and succeeding on the third, and a gateway always answering
500. -/
theorem c5_upload_retry_bound_witness :
    upload_file
        (fun i => if i < 2 then .raise "timeout"
                  else .status 200 (some "doc1")) 3 = (some "doc1", 3) ∧
    upload_file (fun _ => .status 500 none) 3 = (none, 3) :=
  c5_upload_retry_bound
    (fun i => if i < 2 then .raise "timeout"
              else .status 200 (some "doc1"))
    (fun _ => .status 500 none) "doc1"
    (by simp [AttemptOutcome.fails])
    (by simp [AttemptOutcome.fails])
    (by simp)
    (fun i _ => by simp [AttemptOutcome.fails])

/-- **C7**: in one renewal run, a candidate channel whose re-registration
or commit fails is left unchanged (rolled back) and, the threshold only
growing with time, reappears in the next run's candidate set, while every
other candidate whose registration and commit succeed ends with its
`channel_id` and `expiration` replaced together by the new watch's
values — one channel's failure does not abort the others. -/
theorem c7_renewal_isolation (channels : List NotificationChannel)
    (threshold threshold' : Int) (ext : RenewExt)
    (i j : Fin channels.length) (nc : WatchChannel)
    (hci : (channels.get i).expiration ≤ threshold)
    (hfail : (∃ e, ext.setup (channels.get i) = .error e) ∨
      ext.commitOk (channels.get i) = false)
    (hth : threshold ≤ threshold')
    (hcj : (channels.get j).expiration ≤ threshold)
    (hsj : ext.setup (channels.get j) = .ok nc)
    (hkj : ext.commitOk (channels.get j) = true) :
    ((renew_channels channels threshold ext).get
        ⟨i, by simp [renew_channels]⟩ = channels.get i) ∧
    channels.get i ∈
      renewCandidates (renew_channels channels threshold ext) threshold' ∧
    ((renew_channels channels threshold ext).get
        ⟨j, by simp [renew_channels]⟩ =
      { channels.get j with channel_id := nc.channel_id,
                            expiration := nc.expiration }) := by
  simp only [List.get_eq_getElem] at hci hfail hcj hsj hkj ⊢
  have hi : (renew_channels channels threshold ext).get
      ⟨i, by simp [renew_channels]⟩ = channels.get i := by
    simp only [List.get_eq_getElem, renew_channels, List.getElem_map]
    rw [if_pos hci]
    rcases hfail with ⟨e, he⟩ | hk
    · simp only [renewOne, he]
    · cases hs : ext.setup (channels.get i) with
      | error e => simp only [List.get_eq_getElem] at hs
                   simp only [renewOne, hs]
      | ok nc2 => simp only [List.get_eq_getElem] at hs
                  simp only [renewOne, hs, hk]
                  simp
  simp only [List.get_eq_getElem] at hi
  refine ⟨hi, ?_, ?_⟩
  · have hmem : channels.get i ∈ renew_channels channels threshold ext := by
      rw [List.get_eq_getElem, ← hi]
      exact List.getElem_mem _
    simp only [List.get_eq_getElem] at hmem
    simp only [renewCandidates, List.mem_filter]
    refine ⟨hmem, ?_⟩
    simp only [decide_eq_true_eq]
    exact le_trans hci hth
  · simp only [List.get_eq_getElem, renew_channels, List.getElem_map]
    rw [if_pos hcj]
    simp only [renewOne, hsj, hkj]
    simp

/-- Witness for the C7 theorem: three expiring channels, re-registration
failing for exactly the middle one. -/
theorem c7_renewal_isolation_witness :
    ((renew_channels
        [⟨"c0", "f0", 10⟩, ⟨"c1", "f1", 20⟩, ⟨"c2", "f2", 30⟩] 100
        ⟨fun c => if c.channel_id = "c1" then .error "registration failed"
                  else .ok ⟨"new_" ++ c.channel_id, c.folder_id,
                            c.expiration + 700⟩,
          fun _ => true⟩).get ⟨1, by simp [renew_channels]⟩ =
      ⟨"c1", "f1", 20⟩) ∧
    (⟨"c1", "f1", 20⟩ : NotificationChannel) ∈
      renewCandidates
        (renew_channels
          [⟨"c0", "f0", 10⟩, ⟨"c1", "f1", 20⟩, ⟨"c2", "f2", 30⟩] 100
          ⟨fun c => if c.channel_id = "c1" then .error "registration failed"
                    else .ok ⟨"new_" ++ c.channel_id, c.folder_id,
                              c.expiration + 700⟩,
            fun _ => true⟩) 200 ∧
    ((renew_channels
        [⟨"c0", "f0", 10⟩, ⟨"c1", "f1", 20⟩, ⟨"c2", "f2", 30⟩] 100
        ⟨fun c => if c.channel_id = "c1" then .error "registration failed"
                  else .ok ⟨"new_" ++ c.channel_id, c.folder_id,
                            c.expiration + 700⟩,
          fun _ => true⟩).get ⟨0, by simp [renew_channels]⟩ =
      ⟨"new_c0", "f0", 710⟩) :=
  c7_renewal_isolation
    [⟨"c0", "f0", 10⟩, ⟨"c1", "f1", 20⟩, ⟨"c2", "f2", 30⟩] 100 200
    ⟨fun c => if c.channel_id = "c1" then .error "registration failed"
              else .ok ⟨"new_" ++ c.channel_id, c.folder_id,
                        c.expiration + 700⟩,
      fun _ => true⟩
    ⟨1, by decide⟩ ⟨0, by decide⟩ ⟨"new_c0", "f0", 710⟩
    (by decide) (Or.inl ⟨"registration failed", rfl⟩) (by decide)
    (by decide) rfl rfl

/-- **C9**: `setup_monitoring` is atomic at its boundary — when the
service is initialized, watch registration succeeds and the commit
succeeds, exactly one new `NotificationChannel` row is appended and the
channel returned; when any of the three fails, the session is rolled
back, the table is unchanged and a 500 error is returned. -/
theorem c9_setup_atomicity (ext extBad : SetupExt)
    (channels channelsB : List NotificationChannel) (ch : WatchChannel)
    (h1 : ext.serviceInit = true) (h2 : ext.watch = .ok ch)
    (h3 : ext.commitOk = true)
    (h4 : extBad.serviceInit = false ∨ (∃ e, extBad.watch = .error e) ∨
      extBad.commitOk = false) :
    setup_monitoring ext channels =
      (channels ++ [⟨ch.channel_id, ch.folder_id, ch.expiration⟩],
        .ok ch) ∧
    (setup_monitoring extBad channelsB).1 = channelsB ∧
    ∃ m, (setup_monitoring extBad channelsB).2 = .err500 m := by
  refine ⟨by simp [setup_monitoring, h1, h2, h3], ?_⟩
  rcases h4 with h | ⟨e, he⟩ | h
  · constructor <;> simp [setup_monitoring, h]
  · by_cases hsi : extBad.serviceInit = true
    · constructor <;> simp [setup_monitoring, hsi, he]
    · constructor <;> simp [setup_monitoring, hsi]
  · by_cases hsi : extBad.serviceInit = true
    · cases hw : extBad.watch with
      | error e => constructor <;> simp [setup_monitoring, hsi, hw]
      | ok c => constructor <;> simp [setup_monitoring, hsi, hw, h]
    · constructor <;> simp [setup_monitoring, hsi]

/-- Witness for the C9 theorem: a fully successful setup and one with an
uninitialized Drive service. -/
theorem c9_setup_atomicity_witness :
    setup_monitoring ⟨true, .ok ⟨"ch1", "fold1", 999⟩, true⟩ [] =
      ([⟨"ch1", "fold1", 999⟩], .ok ⟨"ch1", "fold1", 999⟩) ∧
    (setup_monitoring ⟨false, .ok ⟨"x", "y", 0⟩, true⟩
        [⟨"c0", "f0", 1⟩]).1 = [⟨"c0", "f0", 1⟩] ∧
    ∃ m, (setup_monitoring ⟨false, .ok ⟨"x", "y", 0⟩, true⟩
        [⟨"c0", "f0", 1⟩]).2 = .err500 m :=
  c9_setup_atomicity ⟨true, .ok ⟨"ch1", "fold1", 999⟩, true⟩
    ⟨false, .ok ⟨"x", "y", 0⟩, true⟩ [] [⟨"c0", "f0", 1⟩]
    ⟨"ch1", "fold1", 999⟩ rfl rfl rfl (Or.inl rfl)

end DriveListener
